import Mathlib

/-!
Verification of the configuration resolver and step-graph builder of the
Azure chroot builder (`src/builder/azure/chroot/builder.go`).

The Go code is shallowly embedded: `Builder.Prepare` becomes `prepare`,
`buildsteps` becomes `buildsteps`, and the artifact assembly of
`Builder.Run` (lines 387-399) becomes `runArtifact` / `runResources`.
Helper code of the repository that is not under `src/` (the platform-image
URN parser, the Azure resource-id parser, the shared-image destination
validator, the artifact type) is modelled from the spec, as marked on each
definition.
-/

namespace AzureChroot

/-- Splits a list of characters at every occurrence of `sep`
(model of splitting a string on a separator character). -/
def splitChars (sep : Char) : List Char → List (List Char)
  | [] => [[]]
  | c :: cs =>
    let rest := splitChars sep cs
    if c = sep then
      [] :: rest
    else
      match rest with
      | [] => [[c]]
      | r :: rs => (c :: r) :: rs

/-- Splits a string at every occurrence of the character `sep`. -/
def splitString (sep : Char) (s : String) : List String :=
  (splitChars sep s.toList).map (fun cs => String.mk cs)

/-- Lower-cases an ASCII letter, leaves every other character unchanged. -/
def asciiLower (c : Char) : Char :=
  if 65 ≤ c.toNat ∧ c.toNat ≤ 90 then Char.ofNat (c.toNat + 32) else c

/-- Model of Go `strings.EqualFold` restricted to ASCII case folding;
every comparison made by the embedded code is between ASCII strings. -/
def equalFold (s t : String) : Bool :=
  decide (s.toList.map asciiLower = t.toList.map asciiLower)

/-- A parsed platform image specifier (`client.PlatformImage`). -/
structure PlatformImage where
  publisher : String
  offer : String
  sku : String
  version : String
  deriving DecidableEq, Repr

/-- Modelled from the spec: the platform-image parser of the resource
identifier utilities ("splits a colon-delimited 4-tuple; fails with
ParseError if the shape does not match", spec §4.2); the Go function
`client.ParsePlatformImageURN` is not under `src/`. -/
def parsePlatformImageURN (s : String) : Option PlatformImage :=
  match splitString ':' s with
  | [p, o, k, v] =>
    if p ≠ "" ∧ o ≠ "" ∧ k ≠ "" ∧ v ≠ "" then some ⟨p, o, k, v⟩ else none
  | _ => none

/-- A parsed Azure resource identifier (`azure.Resource`). -/
structure AzureResourceID where
  subscriptionID : String
  resourceGroup : String
  provider : String
  resourceType : String
  resourceName : String
  deriving DecidableEq, Repr

/-- Modelled from the spec: the resource-identifier parser of the resource
identifier utilities ("parses a hierarchical path-like identifier into
provider/resource-type/name components", spec §4.2, with the shape of the
spec's example `/subscriptions/x/resourceGroups/y/providers/Microsoft.Compute/disks/z`);
the Go function `azure.ParseResourceID` is not under `src/`. -/
def parseResourceID (s : String) : Option AzureResourceID :=
  match splitString '/' s with
  | ["", "subscriptions", sub, "resourceGroups", rg, "providers", prov, rtype, name] =>
    if sub ≠ "" ∧ rg ≠ "" ∧ prov ≠ "" ∧ rtype ≠ "" ∧ name ≠ "" then
      some ⟨sub, rg, prov, rtype, name⟩
    else none
  | _ => none

/-- The shared image gallery destination (`SharedImageGalleryDestination`). -/
structure SharedImageGalleryDestination where
  resourceGroup : String
  galleryName : String
  imageName : String
  imageVersion : String
  deriving DecidableEq, Repr

/-- Modelled from the spec: the structural validator of the shared-image
destination ("it is delegated to its own structural validator ... whose
errors/warnings are merged in", spec §4.1); the Go method
`SharedImageGalleryDestination.Validate` is not under `src/`. It returns one
error per missing required field, and a list of warnings. -/
def SharedImageGalleryDestination.validate (d : SharedImageGalleryDestination)
    (prefixName : String) : List String × List String :=
  ((if d.resourceGroup = "" then [prefixName ++ ".resource_group is required"] else []) ++
   (if d.galleryName = "" then [prefixName ++ ".gallery_name is required"] else []) ++
   (if d.imageName = "" then [prefixName ++ ".image_name is required"] else []) ++
   (if d.imageVersion = "" then [prefixName ++ ".image_version is required"] else []),
   [])

/-- Modelled from the spec: the resource id of the shared image version the
destination denotes ("shared-image-version id", spec §3 Artifact); the Go
method `SharedImageGalleryDestination.ResourceID` is not under `src/`. -/
def SharedImageGalleryDestination.resourceID (d : SharedImageGalleryDestination)
    (subscriptionID : String) : String :=
  "/subscriptions/" ++ subscriptionID ++ "/resourceGroups/" ++ d.resourceGroup ++
    "/providers/Microsoft.Compute/galleries/" ++ d.galleryName ++
    "/images/" ++ d.imageName ++ "/versions/" ++ d.imageVersion

/-- `sourceType` (builder.go lines 110-115). `none` models the zero value `""`. -/
inductive SourceType where
  | platformImage
  | disk
  deriving DecidableEq, Repr

/-- Environment info of the VM packer runs on (`client.ComputeInfo`),
spec §3 EnvironmentInfo. -/
structure ComputeInfo where
  location : String
  subscriptionID : String
  deriving DecidableEq, Repr

/-- The decoded raw configuration reaching the validation part of
`Builder.Prepare` (builder.go `Config`, lines 38-108). List fields whose
defaulting distinguishes a `nil` slice from an explicitly empty one are
`Option`s, `none` modelling Go `nil`. `hasSharedImageDestinationKey` models
whether `"shared_image_destination"` occurs in the decoder metadata keys
(`md.Keys`, builder.go lines 136, 277, 287). -/
structure RawConfig where
  fromScratch : Bool
  source : String
  commandWrapper : String
  preMountCommands : List String
  mountOptions : List String
  mountPartition : String
  mountPath : String
  postMountCommands : List String
  chrootMounts : Option (List (List String))
  copyFiles : Option (List String)
  osDiskSizeGB : Int
  osDiskStorageAccountType : String
  osDiskCacheType : String
  imageHyperVGeneration : String
  temporaryOSDiskID : String
  temporaryOSDiskSnapshotID : String
  skipCleanup : Bool
  imageResourceID : String
  sharedImageGalleryDestination : SharedImageGalleryDestination
  hasSharedImageDestinationKey : Bool
  deriving DecidableEq, Repr

/-- The resolved configuration, after defaulting and source classification. -/
structure Config where
  fromScratch : Bool
  source : String
  sourceType : Option SourceType
  commandWrapper : String
  preMountCommands : List String
  mountOptions : List String
  mountPartition : String
  mountPath : String
  postMountCommands : List String
  chrootMounts : List (List String)
  copyFiles : Option (List String)
  osDiskSizeGB : Int
  osDiskStorageAccountType : String
  osDiskCacheType : String
  imageHyperVGeneration : String
  temporaryOSDiskID : String
  temporaryOSDiskSnapshotID : String
  skipCleanup : Bool
  imageResourceID : String
  sharedImageGalleryDestination : SharedImageGalleryDestination
  deriving DecidableEq, Repr

/-- The default chroot mount list (builder.go lines 170-176). -/
def defaultChrootMounts : List (List String) :=
  [["proc", "proc", "/proc"],
   ["sysfs", "sysfs", "/sys"],
   ["bind", "/dev", "/dev"],
   ["devpts", "devpts", "/dev/pts"],
   ["binfmt_misc", "binfmt_misc", "/proc/sys/fs/binfmt_misc"]]

/-- Modelled from the spec: the rendered default temporary OS disk id.
Rendering the template of builder.go lines 199-201 against a populated
environment succeeds (spec §8: "Defaulted mount path, disk id, and snapshot
id all successfully render against a populated environment"); the rendered
value is an opaque resource id. -/
def renderedTemporaryOSDiskID : String :=
  "/subscriptions/sub/resourceGroups/rg/providers/Microsoft.Compute/disks/PackerTemp-osdisk-0"

/-- Modelled from the spec: the rendered default temporary snapshot id
(template of builder.go lines 209-211), as for `renderedTemporaryOSDiskID`. -/
def renderedTemporaryOSDiskSnapshotID : String :=
  "/subscriptions/sub/resourceGroups/rg/providers/Microsoft.Compute/snapshots/PackerTemp-osdisk-snapshot-0"

/-- Modelled from the spec: the fixed enumerated set of disk cache types
(`compute.PossibleCachingTypesValues()`, builder.go lines 303-311; spec §4.1
"must each be one of a fixed enumerated set"). -/
def checkDiskCacheType (s : String) : Bool :=
  decide (s ∈ ["None", "ReadOnly", "ReadWrite"])

/-- Modelled from the spec: the fixed enumerated set of disk storage account
types (`compute.PossibleDiskStorageAccountTypesValues()`, builder.go lines
313-321). -/
def checkStorageAccountType (s : String) : Bool :=
  decide (s ∈ ["Premium_LRS", "Standard_LRS", "StandardSSD_LRS", "UltraSSD_LRS"])

/-- Modelled from the spec: the fixed enumerated set of Hyper-V generations
(`compute.PossibleHyperVGenerationValues()`, builder.go lines 323-331). -/
def checkHyperVGeneration (s : String) : Bool :=
  decide (s ∈ ["V1", "V2"])

/-- Is the string a resource id of provider `Microsoft.Compute`, resource
type `images`, under case-insensitive comparison (builder.go lines 268-271)? -/
def isImageResourceID (s : String) : Bool :=
  match parseResourceID s with
  | some r => equalFold r.provider "Microsoft.Compute" && equalFold r.resourceType "images"
  | none => false

/-- Is the string a resource id of provider `Microsoft.Compute`, resource
type `disks`, under case-insensitive comparison (builder.go lines 249-250)? -/
def isDiskResourceID (s : String) : Bool :=
  match parseResourceID s with
  | some r => equalFold r.provider "Microsoft.Compute" && equalFold r.resourceType "disks"
  | none => false

/-- Classification outcome of a `source` string when not building from
scratch (builder.go lines 245-257). -/
inductive SourceClass where
  | platformImage
  | disk
  | invalid
  deriving DecidableEq, Repr

/-- Classifies `source`: the platform-image parse is attempted first
(builder.go line 246), then the disk resource id parse (lines 249-250);
neither succeeding is `invalid` (lines 253-256). -/
def classifySource (s : String) : SourceClass :=
  if (parsePlatformImageURN s).isSome then SourceClass.platformImage
  else if isDiskResourceID s then SourceClass.disk
  else SourceClass.invalid

/-- `packer.MultiErrorAppend errs more...` for the calls where the first
argument is the (possibly nil) accumulator: the result is never nil. -/
def multiErrorAppend (errs : Option (List String)) (more : List String) :
    Option (List String) :=
  some (errs.getD [] ++ more)

/-- The defaulting part of `Builder.Prepare` (builder.go lines 159-228).
`ClientConfig.SetDefaultValues` and the template rendering of the temporary
resource ids are external collaborators, modelled as succeeding. -/
def resolveDefaults (c : RawConfig) : Config :=
  -- lines 165-167: a nil chroot_mounts becomes an empty list,
  -- lines 169-177: an empty chroot_mounts list gets the default
  let chrootMounts := c.chrootMounts.getD []
  let chrootMounts := if chrootMounts = [] then defaultChrootMounts else chrootMounts
  -- lines 180-184: copy_files defaults only when nil and not from_scratch
  let copyFiles :=
    match c.copyFiles with
    | none => if ¬c.fromScratch then some ["/etc/resolv.conf"] else none
    | some l => some l
  { fromScratch := c.fromScratch
    source := c.source
    sourceType := none
    commandWrapper := if c.commandWrapper = "" then "\x7b\x7b.Command\x7d\x7d" else c.commandWrapper
    preMountCommands := c.preMountCommands
    mountOptions := c.mountOptions
    mountPartition := if c.mountPartition = "" then "1" else c.mountPartition
    mountPath := if c.mountPath = "" then "/mnt/packer-azure-chroot-disks/\x7b\x7b.Device\x7d\x7d" else c.mountPath
    postMountCommands := c.postMountCommands
    chrootMounts := chrootMounts
    copyFiles := copyFiles
    osDiskSizeGB := c.osDiskSizeGB
    osDiskStorageAccountType := if c.osDiskStorageAccountType = "" then "Premium_LRS" else c.osDiskStorageAccountType
    osDiskCacheType := if c.osDiskCacheType = "" then "ReadOnly" else c.osDiskCacheType
    imageHyperVGeneration := if c.imageHyperVGeneration = "" then "V1" else c.imageHyperVGeneration
    temporaryOSDiskID := if c.temporaryOSDiskID = "" then renderedTemporaryOSDiskID else c.temporaryOSDiskID
    temporaryOSDiskSnapshotID := if c.temporaryOSDiskSnapshotID = "" then renderedTemporaryOSDiskSnapshotID else c.temporaryOSDiskSnapshotID
    skipCleanup := c.skipCleanup
    imageResourceID := c.imageResourceID
    sharedImageGalleryDestination := c.sharedImageGalleryDestination }

/-- Error messages of the `from_scratch`/`source` checks and the classified
source type (builder.go lines 232-257). -/
def sourceErrs (c : RawConfig) : Option (List String) :=
  if c.fromScratch then
    let e : Option (List String) := none
    let e := if c.source ≠ "" then multiErrorAppend e ["source cannot be specified when building from_scratch"] else e
    let e := if c.osDiskSizeGB = 0 then multiErrorAppend e ["os_disk_size_gb is required with from_scratch"] else e
    let e := if c.preMountCommands = [] then multiErrorAppend e ["pre_mount_commands is required with from_scratch"] else e
    e
  else
    match classifySource c.source with
    | SourceClass.invalid =>
      multiErrorAppend none ["source: " ++ c.source ++ " is not a valid platform image specifier, nor is it a disk resource ID"]
    | _ => none

/-- The source type recorded by the same branch (builder.go lines 248, 252);
it stays the zero value when building from scratch or when classification
fails. -/
def resolveSourceType (c : RawConfig) : Option SourceType :=
  if c.fromScratch then none
  else
    match classifySource c.source with
    | SourceClass.platformImage => some SourceType.platformImage
    | SourceClass.disk => some SourceType.disk
    | SourceClass.invalid => none

/-- The error message of builder.go lines 272-273. -/
def imageResourceIDErrMsg (s : String) : String :=
  "image_resource_id: " ++ s ++ " is not a valid image resource id"

/-- The validation checks following the source classification (builder.go
lines 259-293), threading the error accumulator. The resolved configuration
`cfg` carries the defaulted enum fields the checks read. Returns the final
accumulator and the warnings. -/
def postSourceChecks (c : RawConfig) (cfg : Config) (errs : Option (List String)) :
    Option (List String) × List String :=
  -- lines 259-261
  let errs := if checkDiskCacheType cfg.osDiskCacheType then errs
    else multiErrorAppend errs ["os_disk_cache_type: invalid"]
  -- lines 263-265
  let errs := if checkStorageAccountType cfg.osDiskStorageAccountType then errs
    else multiErrorAppend errs ["os_disk_storage_account_type: invalid"]
  -- lines 267-275: NOTE the Go code passes the new error as the FIRST
  -- argument of MultiErrorAppend, so the accumulator built so far is
  -- discarded and replaced by a MultiError holding only this error
  let errs := if c.imageResourceID ≠ "" ∧ ¬isImageResourceID c.imageResourceID then
      multiErrorAppend none [imageResourceIDErrMsg c.imageResourceID]
    else errs
  -- lines 277-285
  let vres := c.sharedImageGalleryDestination.validate "shared_image_destination"
  let errs := if c.hasSharedImageDestinationKey ∧ vres.1 ≠ [] then
      multiErrorAppend errs vres.1
    else errs
  let warns := if c.hasSharedImageDestinationKey then vres.2 else []
  -- lines 287-289
  let errs := if ¬c.hasSharedImageDestinationKey ∧ c.imageResourceID = "" then
      multiErrorAppend errs ["image_resource_id or shared_image_destination is required"]
    else errs
  -- lines 291-293
  let errs := if checkHyperVGeneration cfg.imageHyperVGeneration then errs
    else multiErrorAppend errs ["image_hyperv_generation: invalid"]
  (errs, warns)

/-- `Builder.Prepare` (builder.go lines 133-301), from the decoded raw
configuration on: returns the resolved configuration, the warnings, and the
accumulated validation errors (`none` = success). -/
def prepare (c : RawConfig) : Config × List String × Option (List String) :=
  let cfg := resolveDefaults c
  let errs := sourceErrs c
  let (errs, warns) := postSourceChecks c cfg errs
  ({ cfg with sourceType := resolveSourceType c }, warns, errs)

/-- `BuilderID` (builder.go line 34). -/
def builderID : String := "azure.chroot"

/-- The closed set of step variants emitted by `buildsteps` (builder.go
lines 402-525), each carrying the fields the Go struct literal sets;
fields the literal omits appear as their Go zero values (`none`, `false`).
Spec §9 models the step interface as exactly this tagged-variant set. -/
inductive Step where
  | verifySharedImageDestination (image : SharedImageGalleryDestination) (location : String)
  | createNewDisk (resourceID : String) (diskSizeGB : Int)
      (diskStorageAccountType : String) (hyperVGeneration : String) (location : String)
      (platformImage : Option PlatformImage) (sourceDiskResourceID : Option String)
      (skipCleanup : Bool)
  | resolvePlatformImageVersion (platformImage : PlatformImage) (location : String)
  | verifySourceDisk (sourceDiskResourceID : String) (location : String)
  | attachDisk
  | preMountCommands (commands : List String)
  | mountDevice (mountOptions : List String) (mountPartition : String) (mountPath : String)
  | postMountCommands (commands : List String)
  | mountExtra (chrootMounts : List (List String))
  | copyFiles (files : Option (List String))
  | chrootProvision
  | earlyCleanup
  | createImage (imageResourceID : String) (imageOSState : String)
      (osDiskCacheType : String) (osDiskStorageAccountType : String) (location : String)
  | createSnapshot (resourceID : String) (location : String) (skipCleanup : Bool)
  | createSharedImageVersion (destination : SharedImageGalleryDestination)
      (osDiskCacheType : String) (location : String)
  deriving DecidableEq, Repr

/-- The source-acquisition steps of `buildsteps` (builder.go lines 422-475):
one branch per source mode; the two `panic` calls become `Except.error`. -/
def sourceSteps (c : Config) (info : ComputeInfo) : Except String (List Step) :=
  if c.fromScratch then
    -- lines 422-428: SkipCleanup is not set in this struct literal,
    -- so it is the zero value false
    Except.ok [Step.createNewDisk c.temporaryOSDiskID c.osDiskSizeGB
      c.osDiskStorageAccountType c.imageHyperVGeneration info.location none none false]
  else
    match c.sourceType with
    | some SourceType.platformImage =>
      -- lines 431-453
      match parsePlatformImageURN c.source with
      | some pi =>
        Except.ok
          ((if equalFold pi.version "latest" then
              [Step.resolvePlatformImageVersion pi info.location]
            else []) ++
           [Step.createNewDisk c.temporaryOSDiskID c.osDiskSizeGB
              c.osDiskStorageAccountType c.imageHyperVGeneration info.location
              (some pi) none c.skipCleanup])
      | none => Except.error ("Couldn't parse platfrom image urn: " ++ c.source)
    | some SourceType.disk =>
      -- lines 455-470
      Except.ok [
        Step.verifySourceDisk c.source info.location,
        Step.createNewDisk c.temporaryOSDiskID c.osDiskSizeGB
          c.osDiskStorageAccountType c.imageHyperVGeneration info.location
          none (some c.source) c.skipCleanup]
    | none =>
      -- line 473
      Except.error "Unknown source type"

/-- `buildsteps` (builder.go lines 402-525). `Except.error` models the
panics of the source-acquisition branch. -/
def buildsteps (c : Config) (info : ComputeInfo) : Except String (List Step) :=
  -- lines 409-410
  let hasValidSharedImage := (c.sharedImageGalleryDestination.validate "").1 = []
  -- lines 412-420
  let pre := if hasValidSharedImage then
      [Step.verifySharedImageDestination c.sharedImageGalleryDestination info.location]
    else []
  match sourceSteps c info with
  | Except.error e => Except.error e
  | Except.ok src =>
    -- lines 477-498
    let universal := [
      Step.attachDisk,
      Step.preMountCommands c.preMountCommands,
      Step.mountDevice c.mountOptions c.mountPartition c.mountPath,
      Step.postMountCommands c.postMountCommands,
      Step.mountExtra c.chrootMounts,
      Step.copyFiles c.copyFiles,
      Step.chrootProvision,
      Step.earlyCleanup]
    -- lines 500-508
    let outImage := if c.imageResourceID ≠ "" then
        [Step.createImage c.imageResourceID "Generalized" c.osDiskCacheType
          c.osDiskStorageAccountType info.location]
      else []
    -- lines 509-522
    let outShared := if hasValidSharedImage then
        [Step.createSnapshot c.temporaryOSDiskSnapshotID info.location c.skipCleanup,
         Step.createSharedImageVersion c.sharedImageGalleryDestination
           c.osDiskCacheType info.location]
      else []
    Except.ok (pre ++ src ++ universal ++ outImage ++ outShared)

/-- The artifact returned by `Builder.Run` on success. `resources` is
modelled from the spec ("Artifact: the build's result — references to
created cloud resources", spec §3); the Go type `azcommon.Artifact` is not
under `src/`. -/
structure Artifact where
  builderIdValue : String
  resources : List String
  deriving DecidableEq, Repr

/-- The resource list computed by `Builder.Run` after a successful run
(builder.go lines 391-397). -/
def runResources (c : Config) (info : ComputeInfo) : List String :=
  let resources : List String := []
  let resources := if c.imageResourceID ≠ "" then resources ++ [c.imageResourceID] else resources
  let resources := if (c.sharedImageGalleryDestination.validate "").1 = [] then
      resources ++ [c.sharedImageGalleryDestination.resourceID info.subscriptionID]
    else resources
  resources

/-- The artifact `Builder.Run` actually returns on success (builder.go lines
387-390, 399): the struct literal sets only `BuilderIdValue` (and state
data), so `resources` is left at its zero value — the list computed by
`runResources` is never stored in the artifact. -/
def runArtifact (_c : Config) (_info : ComputeInfo) : Artifact :=
  { builderIdValue := builderID, resources := [] }

/-! ### Step predicates -/

/-- Does the step create a new disk (`StepCreateNewDisk`)? -/
def isCreateNewDiskStep : Step → Bool
  | Step.createNewDisk .. => true
  | _ => false

/-- Does the step resolve a platform-image version
(`StepResolvePlatformImageVersion`)? -/
def isResolveStep : Step → Bool
  | Step.resolvePlatformImageVersion .. => true
  | _ => false

/-- Is the step the chroot provisioning step (`StepChrootProvision`)? -/
def isProvisionStep : Step → Bool
  | Step.chrootProvision => true
  | _ => false

/-- Is the step the early-cleanup step (`StepEarlyCleanup`)? -/
def isEarlyCleanupStep : Step → Bool
  | Step.earlyCleanup => true
  | _ => false

/-- Does the step create a managed image (`StepCreateImage`)? -/
def isCreateImageStep : Step → Bool
  | Step.createImage .. => true
  | _ => false

/-- Does the step create a snapshot (`StepCreateSnapshot`)? -/
def isCreateSnapshotStep : Step → Bool
  | Step.createSnapshot .. => true
  | _ => false

/-- Does the step create a shared image version
(`StepCreateSharedImageVersion`)? -/
def isCreateSharedImageVersionStep : Step → Bool
  | Step.createSharedImageVersion .. => true
  | _ => false

/-- Is the step one of the output phase (managed image, snapshot,
shared-image version)? -/
def isOutputStep (s : Step) : Bool :=
  isCreateImageStep s || isCreateSnapshotStep s || isCreateSharedImageVersionStep s

/-- The `SkipCleanup` field of a `StepCreateNewDisk`; `false` on every other
variant. -/
def createNewDiskSkipCleanup : Step → Bool
  | Step.createNewDisk _ _ _ _ _ _ _ sc => sc
  | _ => false

/-- The step list of a build result, the empty list standing for a panic. -/
def stepsOf : Except String (List Step) → List Step
  | Except.ok l => l
  | Except.error _ => []

/-! ### Concrete fixtures -/

/-- A shared-image destination with no field set (the Go zero value). -/
def emptyDest : SharedImageGalleryDestination := ⟨"", "", "", ""⟩

/-- A structurally valid shared-image destination. -/
def fullDest : SharedImageGalleryDestination := ⟨"rg", "gal", "img", "1.0.0"⟩

/-- A raw configuration with every field at its Go zero value. -/
def rawBase : RawConfig :=
  { fromScratch := false, source := "", commandWrapper := "", preMountCommands := [],
    mountOptions := [], mountPartition := "", mountPath := "", postMountCommands := [],
    chrootMounts := none, copyFiles := none, osDiskSizeGB := 0,
    osDiskStorageAccountType := "", osDiskCacheType := "", imageHyperVGeneration := "",
    temporaryOSDiskID := "", temporaryOSDiskSnapshotID := "", skipCleanup := false,
    imageResourceID := "", sharedImageGalleryDestination := emptyDest,
    hasSharedImageDestinationKey := false }

/-- A raw configuration that passes every validation: a platform-image
source and a managed-image output. -/
def rawOk : RawConfig :=
  { rawBase with
    source := "Canonical:UbuntuServer:18.04-LTS:latest"
    imageResourceID := "/subscriptions/s/resourceGroups/g/providers/Microsoft.Compute/images/i" }

/-- A raw configuration violating two validation rules at once: an invalid
disk cache type and an invalid image resource id. -/
def rawTwoViolations : RawConfig :=
  { rawBase with
    source := "Canonical:UbuntuServer:18.04-LTS:latest"
    osDiskCacheType := "bogus"
    imageResourceID := "bogus" }

/-- `rawOk` with an explicitly empty (non-nil) chroot mount list. -/
def rawEmptyMounts : RawConfig := { rawOk with chrootMounts := some [] }

/-- `rawOk` with the platform-image version spelled `LATEST`. -/
def rawUpperLatest : RawConfig :=
  { rawOk with source := "Canonical:UbuntuServer:18.04-LTS:LATEST" }

/-- A valid from-scratch raw configuration that asks to skip cleanup. -/
def rawScratch : RawConfig :=
  { rawBase with
    fromScratch := true
    osDiskSizeGB := 30
    preMountCommands := ["parted /dev/sda"]
    skipCleanup := true
    imageResourceID := "/subscriptions/s/resourceGroups/g/providers/Microsoft.Compute/images/i" }

/-- A valid raw configuration with a disk source and a shared-image
destination. -/
def rawShared : RawConfig :=
  { rawBase with
    source := "/subscriptions/x/resourceGroups/y/providers/Microsoft.Compute/disks/z"
    sharedImageGalleryDestination := fullDest
    hasSharedImageDestinationKey := true }

/-- A raw configuration whose source is neither a platform image nor a disk. -/
def rawInvalidSource : RawConfig :=
  { rawOk with source := "not-a-valid-thing" }

/-- Environment info of an example VM. -/
def infoEx : ComputeInfo := ⟨"westus", "sub123"⟩

/-! ### Helper lemmas -/

theorem prepare_errs (c : RawConfig) :
    (prepare c).2.2 = (postSourceChecks c (resolveDefaults c) (sourceErrs c)).1 := rfl

theorem prepare_config (c : RawConfig) :
    (prepare c).1 = { resolveDefaults c with sourceType := resolveSourceType c } := rfl

theorem multiErrorAppend_ne_none (e : Option (List String)) (l : List String) :
    multiErrorAppend e l ≠ none := by
  simp [multiErrorAppend]

theorem postSourceChecks_ne_none (c : RawConfig) (cfg : Config)
    (e : Option (List String)) (h : e ≠ none) : (postSourceChecks c cfg e).1 ≠ none := by
  simp only [postSourceChecks, multiErrorAppend]
  split_ifs <;> simp_all

theorem postSourceChecks_none (c : RawConfig) (cfg : Config)
    (e : Option (List String)) (h : (postSourceChecks c cfg e).1 = none) : e = none := by
  by_contra hne
  exact postSourceChecks_ne_none c cfg e hne h

theorem sourceErrs_ne_none_of_scratch_source (c : RawConfig)
    (hb : c.fromScratch = true) (hs : c.source ≠ "") : sourceErrs c ≠ none := by
  simp only [sourceErrs, hb, if_true, multiErrorAppend]
  split_ifs <;> simp_all

theorem sourceErrs_ne_none_of_invalid (c : RawConfig)
    (hb : c.fromScratch = false)
    (hc : classifySource c.source = SourceClass.invalid) : sourceErrs c ≠ none := by
  simp [sourceErrs, hb, hc, multiErrorAppend]

theorem classifySource_eq_platformImage (s : String) :
    classifySource s = SourceClass.platformImage ↔ (parsePlatformImageURN s).isSome = true := by
  unfold classifySource
  split_ifs <;> simp_all

theorem classifySource_eq_disk (s : String) :
    classifySource s = SourceClass.disk ↔
      (parsePlatformImageURN s).isSome = false ∧ isDiskResourceID s = true := by
  unfold classifySource
  split_ifs <;> simp_all

theorem classifySource_eq_invalid (s : String) :
    classifySource s = SourceClass.invalid ↔
      (parsePlatformImageURN s).isSome = false ∧ isDiskResourceID s = false := by
  unfold classifySource
  split_ifs <;> simp_all

theorem isDiskResourceID_iff (s : String) :
    isDiskResourceID s = true ↔
      ∃ r, parseResourceID s = some r ∧
        equalFold r.provider "Microsoft.Compute" = true ∧
        equalFold r.resourceType "disks" = true := by
  unfold isDiskResourceID
  cases h : parseResourceID s <;> simp_all

theorem sourceSteps_notMid (c : Config) (info : ComputeInfo) (src : List Step)
    (h : sourceSteps c info = Except.ok src) :
    src.all (fun s => !isOutputStep s && !isProvisionStep s && !isEarlyCleanupStep s) = true := by
  rw [sourceSteps] at h
  split_ifs at h with hb
  · simp only [Except.ok.injEq] at h
    subst h
    simp [isOutputStep, isCreateImageStep, isCreateSnapshotStep,
      isCreateSharedImageVersionStep, isProvisionStep, isEarlyCleanupStep]
  · split at h
    · split at h
      · simp only [Except.ok.injEq] at h
        subst h
        split_ifs <;>
          simp [isOutputStep, isCreateImageStep, isCreateSnapshotStep,
            isCreateSharedImageVersionStep, isProvisionStep, isEarlyCleanupStep]
      · exact Except.noConfusion h
    · simp only [Except.ok.injEq] at h
      subst h
      simp [isOutputStep, isCreateImageStep, isCreateSnapshotStep,
        isCreateSharedImageVersionStep, isProvisionStep, isEarlyCleanupStep]
    · exact Except.noConfusion h

theorem sourceSteps_skipCleanup (c : Config) (info : ComputeInfo) (src : List Step)
    (h : sourceSteps c info = Except.ok src) :
    ∀ s ∈ src, isCreateNewDiskStep s = true →
      createNewDiskSkipCleanup s = (if c.fromScratch then false else c.skipCleanup) := by
  rw [sourceSteps] at h
  split_ifs at h with hb
  · simp only [Except.ok.injEq] at h
    subst h
    intro s hs _
    simp only [List.mem_singleton] at hs
    subst hs
    simp [createNewDiskSkipCleanup, hb]
  · split at h
    · split at h
      · simp only [Except.ok.injEq] at h
        subst h
        intro s hs hcs
        rw [List.mem_append] at hs
        rcases hs with hs | hs
        · split_ifs at hs with hl
          · simp only [List.mem_singleton] at hs
            subst hs
            simp [isCreateNewDiskStep] at hcs
          · simp at hs
        · simp only [List.mem_singleton] at hs
          subst hs
          simp [createNewDiskSkipCleanup, hb]
      · exact Except.noConfusion h
    · simp only [Except.ok.injEq] at h
      subst h
      intro s hs hcs
      simp only [List.mem_cons, List.mem_singleton] at hs
      rcases hs with hs | hs
      · subst hs
        simp [isCreateNewDiskStep] at hcs
      · rcases hs with hs | hs
        · subst hs
          simp [createNewDiskSkipCleanup, hb]
        · simp at hs
    · exact Except.noConfusion h

/-! ### Claims -/

/-- C1 (code bug): on a configuration violating both the disk-cache-type
rule and the image-resource-id rule, `Prepare` is supposed to return both
violations in one aggregate, but the call at builder.go lines 272-273 passes
the new error as the accumulator argument of `MultiErrorAppend`, so the
returned multi-error holds only the image-resource-id error and the
previously accumulated cache-type error is discarded. -/
theorem c1_image_error_discards_accumulator :
    checkDiskCacheType ((resolveDefaults rawTwoViolations).osDiskCacheType) = false ∧
    rawTwoViolations.imageResourceID ≠ "" ∧
    isImageResourceID rawTwoViolations.imageResourceID = false ∧
    (prepare rawTwoViolations).2.2 = some [imageResourceIDErrMsg "bogus"] := by
  decide

/-- C2 (code bug): on a run that succeeds with `image_resource_id` set,
`Builder.Run` computes the list of created resource ids (builder.go lines
391-397) but returns an artifact in which that list was never stored
(the artifact literal at lines 387-390 precedes the computation and is
returned unchanged at line 399), so the artifact references no resources. -/
theorem c2_artifact_lacks_resources :
    (prepare rawOk).2.2 = none ∧
    (prepare rawOk).1.imageResourceID ≠ "" ∧
    runResources (prepare rawOk).1 infoEx = [(prepare rawOk).1.imageResourceID] ∧
    (runArtifact (prepare rawOk).1 infoEx).resources = [] := by
  decide

/-- C3: `Prepare` succeeds only when exactly one of `from_scratch == true`
or a non-empty `source` holds, and any configuration setting both or
neither makes `Prepare` return an error. -/
theorem c3_from_scratch_xor_source (c : RawConfig) :
    ((prepare c).2.2 = none → (c.fromScratch = true ↔ c.source = "")) ∧
    (¬(c.fromScratch = true ↔ c.source = "") → (prepare c).2.2 ≠ none) := by
  have main : (prepare c).2.2 = none → (c.fromScratch = true ↔ c.source = "") := by
    intro h
    rw [prepare_errs] at h
    have he : sourceErrs c = none := postSourceChecks_none _ _ _ h
    cases hb : c.fromScratch with
    | false =>
      have hs : c.source ≠ "" := by
        intro hs
        refine sourceErrs_ne_none_of_invalid c hb ?_ he
        rw [hs]
        decide
      simp [hb, hs]
    | true =>
      have hs : c.source = "" := by
        by_contra hs
        exact sourceErrs_ne_none_of_scratch_source c hb hs he
      simp [hb, hs]
  exact ⟨main, fun hn h => hn (main h)⟩

/-- Witness for C3 at a configuration `Prepare` accepts. -/
theorem c3_witness :
    (prepare rawOk).2.2 = none ∧ (rawOk.fromScratch = true ↔ rawOk.source = "") :=
  ⟨by decide, (c3_from_scratch_xor_source rawOk).1 (by decide)⟩

/-- C4: a configuration that sets no `image_resource_id` and no structurally
valid `shared_image_destination` (either the key is absent, or the
destination fails its structural validation) makes `Prepare` return an
error. -/
theorem c4_output_required (c : RawConfig) (h1 : c.imageResourceID = "")
    (h2 : c.hasSharedImageDestinationKey = false ∨
      (c.sharedImageGalleryDestination.validate "shared_image_destination").1 ≠ []) :
    (prepare c).2.2 ≠ none := by
  rw [prepare_errs]
  simp only [postSourceChecks, multiErrorAppend]
  rcases h2 with h2 | h2 <;> split_ifs <;> simp_all

/-- Witness for C4 at the all-zero configuration. -/
theorem c4_witness :
    rawBase.imageResourceID = "" ∧ rawBase.hasSharedImageDestinationKey = false ∧
    (prepare rawBase).2.2 ≠ none :=
  ⟨by decide, by decide, c4_output_required rawBase (by decide) (Or.inl (by decide))⟩

/-- C5: for a source string with `from_scratch == false`, classification is
total and exclusive over {platform-image, existing-disk, invalid}: the
platform-image parse is attempted first, the existing-disk class holds
exactly when the platform parse failed and the string parses as a resource
id whose provider is `Microsoft.Compute` and resource type is `disks` under
case-insensitive comparison, a string matching neither is invalid and makes
`Prepare` fail, and the spec's three examples classify as stated. -/
theorem c5_source_classification :
    (∀ s : String,
      (classifySource s = SourceClass.platformImage ↔ (parsePlatformImageURN s).isSome = true) ∧
      (classifySource s = SourceClass.disk ↔
        (parsePlatformImageURN s).isSome = false ∧ isDiskResourceID s = true) ∧
      (classifySource s = SourceClass.invalid ↔
        (parsePlatformImageURN s).isSome = false ∧ isDiskResourceID s = false) ∧
      (isDiskResourceID s = true ↔
        ∃ r, parseResourceID s = some r ∧
          equalFold r.provider "Microsoft.Compute" = true ∧
          equalFold r.resourceType "disks" = true)) ∧
    (∀ c : RawConfig, c.fromScratch = false →
      classifySource c.source = SourceClass.invalid → (prepare c).2.2 ≠ none) ∧
    classifySource "Canonical:UbuntuServer:18.04-LTS:latest" = SourceClass.platformImage ∧
    classifySource "/subscriptions/x/resourceGroups/y/providers/Microsoft.Compute/disks/z" =
      SourceClass.disk ∧
    classifySource "not-a-valid-thing" = SourceClass.invalid := by
  refine ⟨fun s => ⟨classifySource_eq_platformImage s, classifySource_eq_disk s,
    classifySource_eq_invalid s, isDiskResourceID_iff s⟩,
    fun c hb hc => ?_, by decide, by decide, by decide⟩
  rw [prepare_errs]
  exact postSourceChecks_ne_none _ _ _ (sourceErrs_ne_none_of_invalid c hb hc)

/-- Witness for C5 at a configuration with an unclassifiable source. -/
theorem c5_witness :
    rawInvalidSource.fromScratch = false ∧
    classifySource rawInvalidSource.source = SourceClass.invalid ∧
    (prepare rawInvalidSource).2.2 ≠ none :=
  ⟨by decide, by decide,
    c5_source_classification.2.1 rawInvalidSource (by decide) (by decide)⟩

/-- The resolved configuration of `rawUpperLatest`. -/
def cfgUpperLatest : Config := (prepare rawUpperLatest).1

/-- The resolved configuration of `rawShared`. -/
def cfgShared : Config := (prepare rawShared).1

/-- The resolved configuration of `rawScratch`. -/
def cfgScratch : Config := (prepare rawScratch).1

/-- The create-disk step `buildsteps` emits for `cfgScratch`. -/
def scratchDiskStep : Step :=
  Step.createNewDisk renderedTemporaryOSDiskID 30 "Premium_LRS" "V1" "westus" none none false

/-- C6 counterexample: for the platform-image source whose version is
spelled `LATEST`, which is not the string `"latest"`, `buildsteps` still
emits a resolve-platform-image-version step, because the code compares with
`strings.EqualFold` (builder.go line 433); this refutes "for any other
version no resolve step is emitted" read with literal string equality. -/
theorem c6_counterexample_upper_latest :
    parsePlatformImageURN cfgUpperLatest.source =
      some ⟨"Canonical", "UbuntuServer", "18.04-LTS", "LATEST"⟩ ∧
    ("LATEST" : String) ≠ "latest" ∧
    (stepsOf (buildsteps cfgUpperLatest infoEx)).any isResolveStep = true := by
  decide

/-- C6 as amended: for a platform-image source, a resolve step is emitted
exactly when the version equals `"latest"` under case-insensitive
comparison, and when emitted it precedes the create-disk step. -/
theorem c6_resolve_version_case_insensitive (c : Config) (info : ComputeInfo)
    (pi : PlatformImage) (hf : c.fromScratch = false)
    (ht : c.sourceType = some SourceType.platformImage)
    (hp : parsePlatformImageURN c.source = some pi) :
    ∃ l, buildsteps c info = Except.ok l ∧
      (equalFold pi.version "latest" = true →
        (l.takeWhile (fun s => !isCreateNewDiskStep s)).any isResolveStep = true) ∧
      (equalFold pi.version "latest" = false → l.any isResolveStep = false) := by
  have hss : sourceSteps c info = Except.ok
      ((if equalFold pi.version "latest" then
          [Step.resolvePlatformImageVersion pi info.location]
        else []) ++
       [Step.createNewDisk c.temporaryOSDiskID c.osDiskSizeGB
          c.osDiskStorageAccountType c.imageHyperVGeneration info.location
          (some pi) none c.skipCleanup]) := by
    rw [sourceSteps]
    simp [hf, ht, hp]
  have hb : buildsteps c info = Except.ok (stepsOf (buildsteps c info)) := by
    simp only [buildsteps, hss, stepsOf]
  refine ⟨_, hb, ?_, ?_⟩
  · intro hl
    simp only [buildsteps, hss, stepsOf, hl]
    split_ifs <;>
      simp [List.takeWhile, isCreateNewDiskStep, isResolveStep]
  · intro hl
    simp only [buildsteps, hss, stepsOf, hl]
    split_ifs <;> simp_all [isResolveStep]

/-- Witness for the amended C6 at the `LATEST`-version configuration. -/
theorem c6_witness :
    ∃ l, buildsteps cfgUpperLatest infoEx = Except.ok l ∧
      (equalFold (PlatformImage.mk "Canonical" "UbuntuServer" "18.04-LTS" "LATEST").version
          "latest" = true →
        (l.takeWhile (fun s => !isCreateNewDiskStep s)).any isResolveStep = true) ∧
      (equalFold (PlatformImage.mk "Canonical" "UbuntuServer" "18.04-LTS" "LATEST").version
          "latest" = false → l.any isResolveStep = false) :=
  c6_resolve_version_case_insensitive cfgUpperLatest infoEx
    ⟨"Canonical", "UbuntuServer", "18.04-LTS", "LATEST"⟩
    (by decide) (by decide) (by decide)

/-- C7 counterexample: an explicitly given empty `chroot_mounts` list is not
left unchanged — builder.go line 169 tests `len(...) == 0`, which also holds
for a user-supplied empty list, so the 5-entry default replaces it. -/
theorem c7_counterexample_empty_chroot_mounts :
    rawEmptyMounts.chrootMounts = some [] ∧
    (prepare rawEmptyMounts).2.2 = none ∧
    (prepare rawEmptyMounts).1.chrootMounts = defaultChrootMounts ∧
    defaultChrootMounts ≠ [] := by
  decide

/-- C7 as amended: `chroot_mounts` gets the fixed 5-entry default whenever
the given list is empty — unset or explicitly empty — and a non-empty list
is kept; `copy_files` defaults to `["/etc/resolv.conf"]` exactly when unset
and `from_scratch` is false, and an explicitly given list (including an
explicitly empty one) is kept unchanged. -/
theorem c7_defaults (c : RawConfig) :
    ((c.chrootMounts = none ∨ c.chrootMounts = some []) →
      (prepare c).1.chrootMounts = defaultChrootMounts) ∧
    (∀ l, c.chrootMounts = some l → l ≠ [] → (prepare c).1.chrootMounts = l) ∧
    (c.copyFiles = none → c.fromScratch = false →
      (prepare c).1.copyFiles = some ["/etc/resolv.conf"]) ∧
    (c.copyFiles = none → c.fromScratch = true → (prepare c).1.copyFiles = none) ∧
    (∀ l, c.copyFiles = some l → (prepare c).1.copyFiles = some l) := by
  have hm : (prepare c).1.chrootMounts = (resolveDefaults c).chrootMounts := rfl
  have hf : (prepare c).1.copyFiles = (resolveDefaults c).copyFiles := rfl
  refine ⟨?_, ?_, ?_, ?_, ?_⟩
  · rintro (h | h) <;> simp [hm, resolveDefaults, h]
  · intro l h hne
    simp [hm, resolveDefaults, h, hne]
  · intro h hb
    simp [hf, resolveDefaults, h, hb]
  · intro h hb
    simp [hf, resolveDefaults, h, hb]
  · intro l h
    simp [hf, resolveDefaults, h]

/-- A configuration with explicitly given non-empty `chroot_mounts` and
explicitly empty `copy_files`. -/
def rawCustomLists : RawConfig :=
  { rawOk with
    chrootMounts := some [["proc", "proc", "/proc"]]
    copyFiles := some [] }

/-- Witness for the amended C7 on unset, explicitly empty and explicitly
non-empty list fields. -/
theorem c7_witness :
    (prepare rawBase).1.chrootMounts = defaultChrootMounts ∧
    (prepare rawCustomLists).1.chrootMounts = [["proc", "proc", "/proc"]] ∧
    (prepare rawCustomLists).1.copyFiles = some [] ∧
    (prepare rawBase).1.copyFiles = some ["/etc/resolv.conf"] ∧
    (prepare rawScratch).1.copyFiles = none :=
  ⟨(c7_defaults rawBase).1 (Or.inl (by decide)),
   (c7_defaults rawCustomLists).2.1 _ (by decide) (by decide),
   (c7_defaults rawCustomLists).2.2.2.2 [] (by decide),
   (c7_defaults rawBase).2.2.1 (by decide) (by decide),
   (c7_defaults rawScratch).2.2.2.1 (by decide) (by decide)⟩

/-- C8: every step list `buildsteps` produces splits as a prefix containing
no provisioning, early-cleanup or output step, then the provisioning step
immediately followed by the early-cleanup step, then the output steps —
so early cleanup comes after provisioning and before every output step;
the output segment contains a create-image step exactly when
`image_resource_id` is non-empty, and the snapshot and shared-image-version
steps exactly when the shared-image destination validates. -/
theorem c8_early_cleanup_before_outputs (c : Config) (info : ComputeInfo)
    (l : List Step) (h : buildsteps c info = Except.ok l) :
    ∃ pre outs,
      l = pre ++ [Step.chrootProvision, Step.earlyCleanup] ++ outs ∧
      pre.all (fun s => !isOutputStep s && !isProvisionStep s && !isEarlyCleanupStep s) = true ∧
      outs.all isOutputStep = true ∧
      (outs.any isCreateImageStep = true ↔ c.imageResourceID ≠ "") ∧
      (outs.any isCreateSnapshotStep = true ↔
        (c.sharedImageGalleryDestination.validate "").1 = []) ∧
      (outs.any isCreateSharedImageVersionStep = true ↔
        (c.sharedImageGalleryDestination.validate "").1 = []) := by
  cases hss : sourceSteps c info with
  | error e =>
    rw [buildsteps, hss] at h
    exact Except.noConfusion h
  | ok src =>
    have hsrcall := sourceSteps_notMid c info src hss
    simp only [buildsteps, hss, Except.ok.injEq] at h
    subst h
    refine ⟨(if (c.sharedImageGalleryDestination.validate "").1 = [] then
        [Step.verifySharedImageDestination c.sharedImageGalleryDestination info.location]
      else []) ++ src ++
      [Step.attachDisk,
       Step.preMountCommands c.preMountCommands,
       Step.mountDevice c.mountOptions c.mountPartition c.mountPath,
       Step.postMountCommands c.postMountCommands,
       Step.mountExtra c.chrootMounts,
       Step.copyFiles c.copyFiles],
      (if c.imageResourceID ≠ "" then
        [Step.createImage c.imageResourceID "Generalized" c.osDiskCacheType
          c.osDiskStorageAccountType info.location]
      else []) ++
      (if (c.sharedImageGalleryDestination.validate "").1 = [] then
        [Step.createSnapshot c.temporaryOSDiskSnapshotID info.location c.skipCleanup,
         Step.createSharedImageVersion c.sharedImageGalleryDestination
           c.osDiskCacheType info.location]
      else []), ?_, ?_, ?_, ?_, ?_, ?_⟩
    · simp [List.append_assoc]
    · simp only [List.all_append, hsrcall, Bool.and_eq_true]
      refine ⟨⟨?_, trivial⟩, ?_⟩
      · split_ifs <;>
          simp [isOutputStep, isCreateImageStep, isCreateSnapshotStep,
            isCreateSharedImageVersionStep, isProvisionStep, isEarlyCleanupStep]
      · simp [isOutputStep, isCreateImageStep, isCreateSnapshotStep,
          isCreateSharedImageVersionStep, isProvisionStep, isEarlyCleanupStep]
    · split_ifs <;>
        simp [isOutputStep, isCreateImageStep, isCreateSnapshotStep,
          isCreateSharedImageVersionStep]
    · split_ifs <;>
        simp_all [isCreateImageStep, isCreateSnapshotStep, isCreateSharedImageVersionStep]
    · split_ifs <;>
        simp_all [isCreateImageStep, isCreateSnapshotStep, isCreateSharedImageVersionStep]
    · split_ifs <;>
        simp_all [isCreateImageStep, isCreateSnapshotStep, isCreateSharedImageVersionStep]

/-- Witness for C8 at the shared-image-destination configuration. -/
theorem c8_witness :
    ∃ pre outs,
      stepsOf (buildsteps cfgShared infoEx) =
        pre ++ [Step.chrootProvision, Step.earlyCleanup] ++ outs ∧
      pre.all (fun s => !isOutputStep s && !isProvisionStep s && !isEarlyCleanupStep s) = true ∧
      outs.all isOutputStep = true ∧
      (outs.any isCreateImageStep = true ↔ cfgShared.imageResourceID ≠ "") ∧
      (outs.any isCreateSnapshotStep = true ↔
        (cfgShared.sharedImageGalleryDestination.validate "").1 = []) ∧
      (outs.any isCreateSharedImageVersionStep = true ↔
        (cfgShared.sharedImageGalleryDestination.validate "").1 = []) :=
  c8_early_cleanup_before_outputs cfgShared infoEx
    (stepsOf (buildsteps cfgShared infoEx)) rfl

/-- C9: for a configuration produced by a `Prepare` that returned no error,
`buildsteps` never reaches its two panic branches: it returns a step list. -/
theorem c9_no_panic_after_prepare (c : RawConfig) (info : ComputeInfo)
    (h : (prepare c).2.2 = none) :
    ∃ l, buildsteps (prepare c).1 info = Except.ok l := by
  have he : sourceErrs c = none := by
    rw [prepare_errs] at h
    exact postSourceChecks_none _ _ _ h
  have hfs : (prepare c).1.fromScratch = c.fromScratch := rfl
  have hst : (prepare c).1.sourceType = resolveSourceType c := rfl
  have hso : (prepare c).1.source = c.source := rfl
  have hsrc : ∃ src, sourceSteps (prepare c).1 info = Except.ok src := by
    cases hss : sourceSteps (prepare c).1 info with
    | ok src => exact ⟨src, rfl⟩
    | error e =>
      exfalso
      rw [sourceSteps, hfs, hst, hso] at hss
      cases hb : c.fromScratch with
      | true => simp [hb] at hss
      | false =>
        have hcl : classifySource c.source ≠ SourceClass.invalid :=
          fun hc => sourceErrs_ne_none_of_invalid c hb hc he
        cases hc : classifySource c.source with
        | platformImage =>
          have hp : (parsePlatformImageURN c.source).isSome = true :=
            (classifySource_eq_platformImage _).mp hc
          obtain ⟨pi, hpi⟩ := Option.isSome_iff_exists.mp hp
          simp [hb, resolveSourceType, hc, hpi] at hss
        | disk => simp [hb, resolveSourceType, hc] at hss
        | invalid => exact hcl hc
  obtain ⟨src, hs⟩ := hsrc
  cases hbs : buildsteps (prepare c).1 info with
  | ok l => exact ⟨l, rfl⟩
  | error e =>
    exfalso
    simp only [buildsteps, hs] at hbs
    exact Except.noConfusion hbs

/-- Witness for C9 at a configuration `Prepare` accepts. -/
theorem c9_witness :
    (prepare rawOk).2.2 = none ∧
    ∃ l, buildsteps (prepare rawOk).1 infoEx = Except.ok l :=
  ⟨by decide, c9_no_panic_after_prepare rawOk infoEx (by decide)⟩

/-- C10: in every step list `buildsteps` produces, a create-disk step
carries `SkipCleanup == false` when `from_scratch` is set — even when the
configuration asks for `skip_cleanup = true` — and carries the
configuration's `skip_cleanup` flag in the platform-image and existing-disk
source modes, the only other modes that emit a create-disk step. -/
theorem c10_from_scratch_disk_no_skip_cleanup (c : Config) (info : ComputeInfo)
    (l : List Step) (h : buildsteps c info = Except.ok l) :
    ∀ s ∈ l, isCreateNewDiskStep s = true →
      createNewDiskSkipCleanup s = (if c.fromScratch then false else c.skipCleanup) := by
  cases hss : sourceSteps c info with
  | error e =>
    rw [buildsteps, hss] at h
    exact Except.noConfusion h
  | ok src =>
    have hsk := sourceSteps_skipCleanup c info src hss
    simp only [buildsteps, hss, Except.ok.injEq] at h
    subst h
    intro s hs hcs
    simp only [List.mem_append] at hs
    rcases hs with ((⟨hs | hs⟩ | hs) | hs) | hs
    · split_ifs at hs
      · simp only [List.mem_singleton] at hs
        subst hs
        simp [isCreateNewDiskStep] at hcs
      · simp at hs
    · exact hsk s hs hcs
    · simp only [List.mem_cons, List.mem_singleton] at hs
      rcases hs with hs | hs | hs | hs | hs | hs | hs | hs | hs <;>
        first
          | (subst hs; simp [isCreateNewDiskStep] at hcs)
          | simp at hs
    · split_ifs at hs
      · simp only [List.mem_singleton] at hs
        subst hs
        simp [isCreateNewDiskStep] at hcs
      · simp at hs
    · split_ifs at hs
      · simp only [List.mem_cons, List.mem_singleton] at hs
        rcases hs with hs | hs | hs <;>
          first
            | (subst hs; simp [isCreateNewDiskStep] at hcs)
            | simp at hs
      · simp at hs

/-- Witness for C10 at the from-scratch configuration with
`skip_cleanup = true`: the emitted create-disk step carries `false`. -/
theorem c10_witness :
    cfgScratch.fromScratch = true ∧ cfgScratch.skipCleanup = true ∧
    isCreateNewDiskStep scratchDiskStep = true ∧
    createNewDiskSkipCleanup scratchDiskStep =
      (if cfgScratch.fromScratch then false else cfgScratch.skipCleanup) :=
  ⟨by decide, by decide, by decide,
    c10_from_scratch_disk_no_skip_cleanup cfgScratch infoEx
      (stepsOf (buildsteps cfgScratch infoEx)) rfl scratchDiskStep
      (by decide) (by decide)⟩

end AzureChroot
